import Mathlib

/-!
Shallow embedding of the job orchestration and status fan-out subsystem of the
PratikDev/transcoder repository.

The registry (`StatusManager`, from `services/status_manager.go`, the variant
whose task entries carry a bound cancellation handle) is modelled as explicit
state passing: Go maps become association lists, a Go channel becomes a bounded
FIFO queue of status updates together with a close counter (Go close of an
already-closed channel panics, which the model records as a returned flag), and
wall-clock time becomes a monotone counter stamped by the registry at send time.
External collaborators (ffprobe, ffmpeg, the filesystem) are parameters: their
outcomes are passed in as explicit arguments, and side effects they would
perform are recorded as event values.
-/

set_option autoImplicit false

/-- Payload data attached to a status update (types/status_manager_types.go, TaskData). -/
structure TaskData where
  resolution : String
  frame : String
  timestamp : Int
  progress : Rat
  deriving Repr, DecidableEq

/-- Zero value of TaskData (the Go zero value of the struct). -/
def TaskData.zero : TaskData :=
  { resolution := "", frame := "", timestamp := 0, progress := 0 }

/-- Status update broadcast to subscribers (types/status_manager_types.go, StatusUpdate). -/
structure StatusUpdate where
  type : String
  message : String
  data : TaskData
  timestamp : Int
  deriving Repr, DecidableEq

/-- Zero value of StatusUpdate (the Go zero value of the struct). -/
def StatusUpdate.zero : StatusUpdate :=
  { type := "", message := "", data := TaskData.zero, timestamp := 0 }

/-- Registry entry for one task: its last known status and the optional bound
cancellation handle (types.TaskStatus with the Cancel field; the Go
context.CancelFunc is modelled as an opaque numeric handle). -/
structure TaskStatus where
  lastUpdate : StatusUpdate
  cancel : Option Nat
  deriving Repr, DecidableEq

/-- Zero value of TaskStatus (the Go zero value: zero update, nil handle). -/
def TaskStatus.zero : TaskStatus :=
  { lastUpdate := StatusUpdate.zero, cancel := none }

/-- A subscriber delivery channel: bounded FIFO buffer plus a count of how many
times close was executed on it. Go panics when close runs on an already
closed channel, so a closedCount of two or more marks a double close. -/
structure Chan where
  buf : List StatusUpdate
  cap : Nat
  closedCount : Nat
  deriving Repr, DecidableEq

/-- Non-blocking send: enqueue when the buffer has room, otherwise drop
(the select with a default branch in the Go code). -/
def Chan.trySend (c : Chan) (u : StatusUpdate) : Chan :=
  if c.buf.length < c.cap then { c with buf := c.buf ++ [u] } else c

/-- Close a channel: bump the close counter (buffered values stay readable,
as in Go). -/
def Chan.close (c : Chan) : Chan :=
  { c with closedCount := c.closedCount + 1 }

/-- Lookup in an association list modelling a Go map (first entry with the key). -/
def lookupKey {α : Type} {β : Type} [DecidableEq α] (k : α) : List (α × β) → Option β
  | [] => none
  | (k0, v) :: rest => if k0 = k then some v else lookupKey k rest

/-- Insert or replace the entry for a key in an association list (Go map assignment). -/
def setEntry {α : Type} {β : Type} [DecidableEq α] (k : α) (v : β) : List (α × β) → List (α × β)
  | [] => [(k, v)]
  | (k0, v0) :: rest => if k0 = k then (k, v) :: rest else (k0, v0) :: setEntry k v rest

/-- Delete the entry for a key from an association list (Go map delete). -/
def eraseEntry {α : Type} {β : Type} [DecidableEq α] (k : α) : List (α × β) → List (α × β)
  | [] => []
  | (k0, v0) :: rest => if k0 = k then rest else (k0, v0) :: eraseEntry k rest

/-- Apply a function to the channel stored under an id, leaving the rest alone. -/
def updateChan (cid : Nat) (f : Chan → Chan) : List (Nat × Chan) → List (Nat × Chan)
  | [] => []
  | (k0, c0) :: rest =>
    if k0 = cid then (k0, f c0) :: updateChan cid f rest
    else (k0, c0) :: updateChan cid f rest

/-- Apply a function to every channel whose id is in the given subscriber list
(the loop over a subscriber set in SendUpdate and RemoveTask). -/
def updateAll (f : Chan → Chan) (subs : List Nat) (l : List (Nat × Chan)) : List (Nat × Chan) :=
  subs.foldl (fun acc cid => updateChan cid f acc) l

/-- State of the StatusManager: the two Go maps, a heap of allocated channels,
the next fresh channel id, and the registry clock used for send-time stamps. -/
structure StatusManager where
  tasks : List (String × TaskStatus)
  subscribers : List (String × List Nat)
  chans : List (Nat × Chan)
  nextChan : Nat
  now : Int
  deriving Repr, DecidableEq

/-- The fresh StatusManager produced by NewStatusManager. -/
def StatusManager.empty : StatusManager :=
  { tasks := [], subscribers := [], chans := [], nextChan := 0, now := 0 }

/-- RegisterSubscriber from status_manager.go: fails when the task has no
registry entry; otherwise allocates a buffered channel of capacity 5, adds it
to the subscriber set of the task, and hands the last known status to the new
channel with a non-blocking send. Returns the new state and the channel id,
or none on the not-found error. -/
def RegisterSubscriber (sm : StatusManager) (taskID : String) :
    StatusManager × Option Nat :=
  match lookupKey taskID sm.tasks with
  | none => (sm, none)
  | some currentStatus =>
    let subs := (lookupKey taskID sm.subscribers).getD []
    let cid := sm.nextChan
    let fresh : Chan := { buf := [], cap := 5, closedCount := 0 }
    let clientChan := fresh.trySend currentStatus.lastUpdate
    ({ sm with
        subscribers := setEntry taskID (subs ++ [cid]) sm.subscribers,
        chans := setEntry cid clientChan sm.chans,
        nextChan := sm.nextChan + 1 },
     some cid)

/-- DeregisterSubscriber from status_manager.go. When the task has a subscriber
map entry, the channel is removed from the set and then closed; the close runs
whether or not the channel was still a member, exactly as in the source. The
returned flag is true when the close hit an already closed channel, which in Go
is a runtime panic. When the task has no subscriber entry nothing happens. -/
def DeregisterSubscriber (sm : StatusManager) (taskID : String) (clientChan : Nat) :
    StatusManager × Bool :=
  match lookupKey taskID sm.subscribers with
  | none => (sm, false)
  | some chansList =>
    let remaining := chansList.erase clientChan
    let panicked := ((lookupKey clientChan sm.chans).map fun c =>
      decide (c.closedCount ≠ 0)).getD false
    let newChans := updateChan clientChan Chan.close sm.chans
    let newSubs :=
      if remaining.isEmpty then eraseEntry taskID sm.subscribers
      else setEntry taskID remaining sm.subscribers
    ({ sm with subscribers := newSubs, chans := newChans }, panicked)

/-- SendUpdate from status_manager.go: stamp the update with the registry
clock, record it as the last status of the task (creating the entry from the
Go zero value when absent, and touching only the LastUpdate field), then
try-send it to every registered subscriber channel, skipping full ones. -/
def SendUpdate (sm : StatusManager) (taskID : String) (update : StatusUpdate) :
    StatusManager :=
  let stamped := { update with timestamp := sm.now }
  let task := (lookupKey taskID sm.tasks).getD TaskStatus.zero
  let tasks1 := setEntry taskID { task with lastUpdate := stamped } sm.tasks
  let chans1 :=
    match lookupKey taskID sm.subscribers with
    | none => sm.chans
    | some subs => updateAll (fun c => c.trySend stamped) subs sm.chans
  { sm with tasks := tasks1, chans := chans1, now := sm.now + 1 }

/-- RemoveTask from status_manager.go: invoke the bound cancellation handle if
present (returned as the list of invoked handles), delete the task entry, close
every remaining subscriber channel and delete the subscriber entry. -/
def RemoveTask (sm : StatusManager) (taskID : String) :
    StatusManager × List Nat :=
  let cancelEvents :=
    match lookupKey taskID sm.tasks with
    | some task => match task.cancel with | some h => [h] | none => []
    | none => []
  let tasks1 := eraseEntry taskID sm.tasks
  match lookupKey taskID sm.subscribers with
  | none => ({ sm with tasks := tasks1 }, cancelEvents)
  | some subs =>
    ({ sm with
        tasks := tasks1,
        subscribers := eraseEntry taskID sm.subscribers,
        chans := updateAll Chan.close subs sm.chans },
     cancelEvents)

/-- Error cases of CancelTask. -/
inductive CancelErr where
  | notFound
  | notCancellable
  | removeFailed
  deriving Repr, DecidableEq

/-- Side effects performed by CancelTask, recorded as events. -/
inductive CancelEvent where
  | cancelInvoked (handle : Nat)
  | outputDirRemoveAttempted (taskID : String)
  deriving Repr, DecidableEq

/-- CancelTask from status_manager.go: not-found when the task has no entry,
not-cancellable when the entry has no bound handle; otherwise the handle is
invoked and then the output directory of the task is removed
(utils.RemoveOutputDirectory, an external call whose failure is the parameter
removeFails); a removal failure is returned as an error. The registry maps are
never written. -/
def CancelTask (sm : StatusManager) (taskID : String) (removeFails : Bool) :
    StatusManager × List CancelEvent × Option CancelErr :=
  match lookupKey taskID sm.tasks with
  | none => (sm, [], some CancelErr.notFound)
  | some task =>
    match task.cancel with
    | none => (sm, [], some CancelErr.notCancellable)
    | some h =>
      let events := [CancelEvent.cancelInvoked h,
                     CancelEvent.outputDirRemoveAttempted taskID]
      if removeFails then (sm, events, some CancelErr.removeFailed)
      else (sm, events, none)

/-- StoreCancelFunc from status_manager.go: bind a cancellation handle onto the
task entry, creating the entry (with a zero last update) when it does not yet
exist. -/
def StoreCancelFunc (sm : StatusManager) (taskID : String) (cancel : Nat) :
    StatusManager :=
  match lookupKey taskID sm.tasks with
  | some task =>
    { sm with tasks := setEntry taskID { task with cancel := some cancel } sm.tasks }
  | none =>
    { sm with tasks := setEntry taskID { lastUpdate := StatusUpdate.zero, cancel := some cancel } sm.tasks }

/-- Resolution tier: the Go enum `type Resolutions int` whose values are the
pixel heights. -/
abbrev Resolutions := Int

/-- Enum value P2160 from types. -/
def P2160 : Resolutions := 2160

/-- Enum value P1440 from types. -/
def P1440 : Resolutions := 1440

/-- Enum value P1080 from types. -/
def P1080 : Resolutions := 1080

/-- Enum value P720 from types. -/
def P720 : Resolutions := 720

/-- Enum value P480 from types. -/
def P480 : Resolutions := 480

/-- Enum value P360 from types. -/
def P360 : Resolutions := 360

/-- Width, height and target bitrate of a preset (types.ResolutionPreset). -/
structure ResolutionPreset where
  height : Int
  width : Int
  bitrate : Int
  deriving Repr, DecidableEq

/-- The static preset table types.RESOLUTIONS. It is a Go map, so the order of
this association list is only the order it is written in the source; map
iteration order in Go is unspecified. -/
def RESOLUTIONS : List (Resolutions × ResolutionPreset) :=
  [ (P2160, { height := 2160, width := 3840, bitrate := 14000 }),
    (P1440, { height := 1440, width := 2560, bitrate := 9000 }),
    (P1080, { height := 1080, width := 1920, bitrate := 6500 }),
    (P720,  { height := 720,  width := 1280, bitrate := 4000 }),
    (P480,  { height := 480,  width := 854,  bitrate := 2000 }),
    (P360,  { height := 360,  width := 640,  bitrate := 1000 }) ]

/-- String method of Resolutions: fmt.Sprintf with the number followed by a
capital P. -/
def resolutionString (r : Resolutions) : String :=
  toString r ++ "P"

/-- GetTargetResolutions from services/utils/helper.go. The Go code ranges over
the RESOLUTIONS map, whose iteration order is unspecified; the order in which
the keys are visited is therefore an explicit parameter (a permutation of the
table keys in any given run). Keeps every tier at most the detected resolution
whose preset has positive width and height. -/
def GetTargetResolutions (iterOrder : List Resolutions) (resolution : Resolutions) :
    List Resolutions :=
  iterOrder.filter fun res =>
    match lookupKey res RESOLUTIONS with
    | some preset => decide (res ≤ resolution) && decide (preset.width > 0) && decide (preset.height > 0)
    | none => false

/-- One stream in the parsed ffprobe output (types.FFProbeStream). -/
structure FFProbeStream where
  codecType : String
  width : Int
  height : Int
  deriving Repr, DecidableEq

/-- DetectPlaylistResolution from services/utils/helper.go, with the parsed
ffprobe output passed in as the list of streams. Takes the dimensions of the
first video stream, errors when either is zero, and builds the result preset
from the width and height alone: the Bitrate field of the returned
ResolutionPreset is left at the Go zero value, exactly as the struct literal
in the source does. -/
def DetectPlaylistResolution (streams : List FFProbeStream) : Option ResolutionPreset :=
  let v := streams.find? fun s => s.codecType == "video"
  let width := (v.map FFProbeStream.width).getD 0
  let height := (v.map FFProbeStream.height).getD 0
  if width = 0 ∨ height = 0 then none
  else some { height := height, width := width, bitrate := 0 }

/-- Playlist fragment produced by one successful subtask
(types.TranscoderPlaylist). -/
structure TranscoderPlaylist where
  resolution : ResolutionPreset
  playlistFilename : String
  playlistPathFromMain : String
  playlistPath : String
  deriving Repr, DecidableEq

/-- Extension of a path as filepath.Ext computes it: the suffix starting at the
final dot of the final slash-separated element, empty when there is none.
Implemented by walking the reversed character list. -/
def filepathExtRev (acc : List Char) : List Char → Option (List Char)
  | [] => none
  | c :: rest =>
    if c = '/' then none
    else if c = '.' then some ('.' :: acc)
    else filepathExtRev (c :: acc) rest

/-- Extension of a filename, per filepath.Ext. -/
def filepathExt (s : String) : String :=
  match filepathExtRev [] s.data.reverse with
  | some cs => String.mk cs
  | none => ""

/-- ASCII lowercasing of one character, as strings.ToLower acts on ASCII. -/
def toLowerChar (c : Char) : Char :=
  if 'A' ≤ c ∧ c ≤ 'Z' then Char.ofNat (c.toNat + 32) else c

/-- ASCII lowercasing of a string (strings.ToLower restricted to ASCII input). -/
def toLowerStr (s : String) : String :=
  String.mk (s.data.map toLowerChar)

/-- strings.TrimSuffix: remove the suffix when present, otherwise return the
string unchanged. -/
def trimSuffix (s suf : String) : String :=
  if suf.data.length ≤ s.data.length ∧
      s.data.drop (s.data.length - suf.data.length) = suf.data
  then String.mk (s.data.take (s.data.length - suf.data.length))
  else s

/-- GetFilenameLessExt from services/utils/helper.go: strings.TrimSuffix of the
filename by the lowercased extension. -/
def GetFilenameLessExt (fileName : String) : String :=
  trimSuffix fileName (toLowerStr (filepathExt fileName))

/-- Construction of the playlist fragment returned by the success path of
transcode in services/transcoder.go: path bookkeeping derived from the source
filename and the resolution tag, and the detected resolution coming from
DetectPlaylistResolution on the produced playlist (the streams of that probe
are a parameter). Returns none when the resolution is not in the preset table
or detection fails; the ffmpeg run itself is assumed to have exited cleanly. -/
def transcodePlaylist (sourceFilename : String) (resolution : Resolutions)
    (outputFolder : String) (streams : List FFProbeStream) :
    Option TranscoderPlaylist :=
  match lookupKey resolution RESOLUTIONS with
  | none => none
  | some _preset =>
    let filenameLessExt := GetFilenameLessExt sourceFilename
    let outputFilenameLessExt := filenameLessExt ++ "_" ++ resolutionString resolution
    let outputPlaylist := outputFolder ++ "/" ++ resolutionString resolution ++ "/" ++
      outputFilenameLessExt ++ "p.m3u8"
    let outputPlaylistFromMain := resolutionString resolution ++ "/" ++
      outputFilenameLessExt ++ "p.m3u8"
    match DetectPlaylistResolution streams with
    | none => none
    | some detectedRes =>
      some { resolution := detectedRes,
             playlistFilename := outputFilenameLessExt ++ "p.m3u8",
             playlistPathFromMain := outputPlaylistFromMain,
             playlistPath := outputPlaylist }

/-- The EXT-X-STREAM-INF line buildMainPlaylist emits for one fragment:
bandwidth is the Bitrate of the detected resolution times 1000, with the
detected pixel dimensions. -/
def streamInfLine (p : TranscoderPlaylist) : String :=
  "#EXT-X-STREAM-INF:BANDWIDTH=" ++ toString (p.resolution.bitrate * 1000) ++
    ",RESOLUTION=" ++ toString p.resolution.width ++ "x" ++ toString p.resolution.height

/-- Full content of the master playlist as buildMainPlaylist assembles it:
header lines, then for each fragment in the given order its stream-inf line
followed by its relative path, joined by newlines. -/
def mainPlaylistContent (playlists : List TranscoderPlaylist) : String :=
  String.intercalate "\n"
    (["#EXTM3U", "#EXT-X-VERSION:3"] ++
      (playlists.map fun p => [streamInfLine p, p.playlistPathFromMain]).flatten)

/-- buildMainPlaylist from services/transcoder.go: false on an empty fragment
list, otherwise writes the assembled content (the write outcome of os.WriteFile
is the parameter writeOk) and returns whether it succeeded together with the
content written. -/
def buildMainPlaylist (playlists : List TranscoderPlaylist) (writeOk : Bool) :
    Bool × Option String :=
  if playlists.isEmpty then (false, none)
  else
    let content := mainPlaylistContent playlists
    if writeOk then (true, some content) else (false, none)

/-- Outcome of one resolution subtask as transcodeResolutions observes it:
a fragment sent on the playlist channel, an error (which sets the failure
flag), or a cancellation (which sets nothing). -/
inductive SubtaskResult where
  | ok (p : TranscoderPlaylist)
  | err
  | cancelled
  deriving Repr, DecidableEq

/-- Whether a subtask outcome is an error. -/
def SubtaskResult.isErr : SubtaskResult → Bool
  | .err => true
  | _ => false

/-- The fragment of a successful subtask outcome, if any. -/
def SubtaskResult.playlist? : SubtaskResult → Option TranscoderPlaylist
  | .ok p => some p
  | _ => none

/-- Result of the fan-out aggregation: whether it succeeded, the master
playlist content written (if any), and whether manifest assembly
(buildMainPlaylist) was reached at all. -/
structure RunOutcome where
  success : Bool
  manifest : Option String
  assemblyAttempted : Bool
  deriving Repr, DecidableEq

/-- transcodeResolutions from services/transcoder.go. The subtasks run
concurrently and successful fragments are sent on a channel, so the results
parameter lists the subtask outcomes in the order they completed; an arbitrary
interleaving is an arbitrary list. After the join: a triggered cancellation
token fails the whole run regardless of outcomes; otherwise any error outcome
fails it; otherwise an empty fragment list fails it; only then is the master
playlist assembled, over the fragments in channel (completion) order. -/
def transcodeResolutions (ctxCancelled : Bool) (results : List SubtaskResult)
    (writeOk : Bool) : RunOutcome :=
  let errorOccurred := results.any SubtaskResult.isErr
  if ctxCancelled then { success := false, manifest := none, assemblyAttempted := false }
  else if errorOccurred then { success := false, manifest := none, assemblyAttempted := false }
  else
    let resolutionPlaylists := results.filterMap SubtaskResult.playlist?
    if resolutionPlaylists.isEmpty then
      { success := false, manifest := none, assemblyAttempted := false }
    else
      let built := buildMainPlaylist resolutionPlaylists writeOk
      { success := built.fst, manifest := built.snd, assemblyAttempted := true }

/-- Process from services/transcoder.go, reduced to its terminal
classification: failed when the output directory cannot be created; otherwise
run the fan-out, and on an unsuccessful run publish cancelled when the context
was cancelled and failed otherwise; on a successful run, failed when archiving
fails and completed otherwise. Returns the type of the terminal status update
published, together with the master playlist content written (if any). -/
def Process (ctxCancelled : Bool) (mkdirOk : Bool) (results : List SubtaskResult)
    (writeOk : Bool) (zipOk : Bool) : String × Option String :=
  if !mkdirOk then ("failed", none)
  else
    let run := transcodeResolutions ctxCancelled results writeOk
    if !run.success then
      if ctxCancelled then ("cancelled", run.manifest) else ("failed", run.manifest)
    else if !zipOk then ("failed", run.manifest)
    else ("completed", run.manifest)

/-- The transcoder instance built by NewTranscoder (services/transcoder.go). -/
structure Transcoder where
  sourceFilename : String
  resolutions : List Resolutions
  output : String
  inputDuration : Rat
  deriving Repr, DecidableEq

/-- NewTranscoder from services/transcoder.go, with the external probes passed
in: the detected source resolution (none when ffprobe fails), the map
iteration order used by GetTargetResolutions, and the detected duration (none
when that probe fails). Returns none — construction failure — when the
resolution probe fails, when the filtered target set is empty, when the
duration probe fails, or when the duration is not positive. -/
def NewTranscoder (probeRes : Option Resolutions) (iterOrder : List Resolutions)
    (probeDuration : Option Rat) (outputDir : String) (sourceFilename : String) :
    Option Transcoder :=
  match probeRes with
  | none => none
  | some vidResolution =>
    let targetResolutions := GetTargetResolutions iterOrder vidResolution
    if targetResolutions.isEmpty then none
    else
      match probeDuration with
      | none => none
      | some d =>
        if d ≤ 0 then none
        else some { sourceFilename := sourceFilename,
                    resolutions := targetResolutions,
                    output := outputDir,
                    inputDuration := d }

/-- Observable steps of the handleTranscode background goroutine
(backend/main.go). -/
inductive DriverEvent where
  | storeCancelFunc (taskID : String)
  | publishFailedInit (taskID : String)
  | processInvoked (onNil : Bool)
  | removeTask (taskID : String)
  deriving Repr, DecidableEq

/-- The JSON body handleTranscode answers with (202 Accepted). -/
structure TranscodeResponse where
  taskId : String
  statusStreamUrl : String
  deriving Repr, DecidableEq

/-- handleTranscode from backend/main.go, from the point where the upload has
been saved: a cancel handle is bound, the background goroutine constructs the
transcoder and — when construction failed — publishes a failed update and then
still calls Process on the nil transcoder (there is no early return in the
source), after which the deferred cleanup removes the task; the 202 response
carrying the task id is written regardless. Returns the response and the
ordered driver events. -/
def handleTranscode (taskID : String) (tr : Option Transcoder) :
    TranscodeResponse × List DriverEvent :=
  let goroutineEvents :=
    (match tr with
     | none => [DriverEvent.publishFailedInit taskID, DriverEvent.processInvoked true]
     | some _ => [DriverEvent.processInvoked false])
    ++ [DriverEvent.removeTask taskID]
  ({ taskId := taskID, statusStreamUrl := "/transcode/status/" ++ taskID },
   DriverEvent.storeCancelFunc taskID :: goroutineEvents)

/-- Looking up the key just set yields the new value. -/
theorem lookupKey_setEntry_same {α β : Type} [DecidableEq α] (k : α) (v : β)
    (l : List (α × β)) : lookupKey k (setEntry k v l) = some v := by
  induction l with
  | nil => simp [setEntry, lookupKey]
  | cons e rest ih =>
    obtain ⟨k0, v0⟩ := e
    by_cases h : k0 = k
    · simp [setEntry, lookupKey, h]
    · simp [setEntry, lookupKey, h, ih]

/-- Setting one key leaves the lookup of any other key unchanged. -/
theorem lookupKey_setEntry_other {α β : Type} [DecidableEq α] {k k0 : α} (v : β)
    (l : List (α × β)) (h : k ≠ k0) :
    lookupKey k (setEntry k0 v l) = lookupKey k l := by
  have h0 : k0 ≠ k := Ne.symm h
  induction l with
  | nil => simp [setEntry, lookupKey, h0]
  | cons e rest ih =>
    obtain ⟨k1, v1⟩ := e
    by_cases h1 : k1 = k0
    · subst h1
      simp [setEntry, lookupKey, h0]
    · simp [setEntry, lookupKey, h1, ih]

/-- Updating a channel id changes its lookup by exactly the function applied. -/
theorem lookupKey_updateChan_self (cid : Nat) (f : Chan → Chan)
    (l : List (Nat × Chan)) :
    lookupKey cid (updateChan cid f l) = (lookupKey cid l).map f := by
  induction l with
  | nil => simp [updateChan, lookupKey]
  | cons e rest ih =>
    obtain ⟨k0, c0⟩ := e
    by_cases h : k0 = cid
    · simp [updateChan, lookupKey, h]
    · simp [updateChan, lookupKey, h, ih]

/-- Updating one channel id leaves the lookup of any other id unchanged. -/
theorem lookupKey_updateChan_other {x cid : Nat} (f : Chan → Chan)
    (l : List (Nat × Chan)) (h : x ≠ cid) :
    lookupKey x (updateChan cid f l) = lookupKey x l := by
  induction l with
  | nil => simp [updateChan]
  | cons e rest ih =>
    obtain ⟨k0, c0⟩ := e
    by_cases h0 : k0 = cid
    · subst h0
      simp [updateChan, lookupKey, Ne.symm h, ih]
    · simp [updateChan, lookupKey, h0, ih]

/-- Effect of the fan-out loop on a single channel: an id outside the
subscriber list is untouched, an id occurring once (the list has no
duplicates, as a Go map of channels cannot) gets the function applied once. -/
theorem lookupKey_updateAll (f : Chan → Chan) (subs : List Nat)
    (l : List (Nat × Chan)) (x : Nat) (hnd : subs.Nodup) :
    lookupKey x (updateAll f subs l) =
      if x ∈ subs then (lookupKey x l).map f else lookupKey x l := by
  induction subs generalizing l with
  | nil => simp [updateAll]
  | cons cid rest ih =>
    have hnd' : rest.Nodup := (List.nodup_cons.mp hnd).2
    have hcid : cid ∉ rest := (List.nodup_cons.mp hnd).1
    have step : updateAll f (cid :: rest) l = updateAll f rest (updateChan cid f l) := by
      simp [updateAll]
    rw [step, ih (updateChan cid f l) hnd']
    by_cases hx : x = cid
    · subst hx
      simp [hcid, lookupKey_updateChan_self]
    · by_cases hr : x ∈ rest
      · simp [hr, hx, lookupKey_updateChan_other f l hx]
      · simp [hr, hx, List.mem_cons, lookupKey_updateChan_other f l hx]

/-- Concrete 1080P fragment used in run instances. -/
def fragment1080 : TranscoderPlaylist :=
  { resolution := { height := 1080, width := 1920, bitrate := 0 },
    playlistFilename := "video_1080Pp.m3u8",
    playlistPathFromMain := "1080P/video_1080Pp.m3u8",
    playlistPath := "./output/t/1080P/video_1080Pp.m3u8" }

/-- Concrete 480P fragment used in run instances. -/
def fragment480 : TranscoderPlaylist :=
  { resolution := { height := 480, width := 854, bitrate := 0 },
    playlistFilename := "video_480Pp.m3u8",
    playlistPathFromMain := "480P/video_480Pp.m3u8",
    playlistPath := "./output/t/480P/video_480Pp.m3u8" }

/-- Concrete 720P fragment used in run instances. -/
def fragment720 : TranscoderPlaylist :=
  { resolution := { height := 720, width := 1280, bitrate := 0 },
    playlistFilename := "video_720Pp.m3u8",
    playlistPathFromMain := "720P/video_720Pp.m3u8",
    playlistPath := "./output/t/720P/video_720Pp.m3u8" }

/-- C1: terminal classification of a job once all resolution subtasks have
finished. With the output directory in place: a triggered cancellation token
makes the published terminal status cancelled regardless of the individual
subtask outcomes; otherwise any Error outcome yields a failed terminal status
with no master manifest written; otherwise zero produced fragments also yields
failed with no manifest; and only when neither holds does the run reach
manifest assembly. -/
theorem process_terminal_classification (results : List SubtaskResult)
    (writeOk zipOk : Bool) :
    ((Process true true results writeOk zipOk).fst = "cancelled"
      ∧ (transcodeResolutions true results writeOk).assemblyAttempted = false)
    ∧ (results.any SubtaskResult.isErr = true →
        Process false true results writeOk zipOk = ("failed", none)
        ∧ (transcodeResolutions false results writeOk).assemblyAttempted = false)
    ∧ (results.any SubtaskResult.isErr = false →
        results.filterMap SubtaskResult.playlist? = [] →
        Process false true results writeOk zipOk = ("failed", none)
        ∧ (transcodeResolutions false results writeOk).assemblyAttempted = false)
    ∧ (results.any SubtaskResult.isErr = false →
        results.filterMap SubtaskResult.playlist? ≠ [] →
        (transcodeResolutions false results writeOk).assemblyAttempted = true) := by
  refine ⟨?_, ?_, ?_, ?_⟩
  · constructor
    · simp [Process, transcodeResolutions]
    · simp [transcodeResolutions]
  · intro herr
    constructor
    · simp [Process, transcodeResolutions, herr]
    · simp [transcodeResolutions, herr]
  · intro herr hempty
    constructor
    · simp [Process, transcodeResolutions, herr, hempty]
    · simp [transcodeResolutions, herr, hempty]
  · intro herr hne
    simp [Process, transcodeResolutions, herr, List.isEmpty_iff, hne]

/-- Witness for C1 at concrete runs: a cancelled run, a run with one error, a
run with only cancelled subtasks (zero fragments), and a clean single-fragment
run that reaches assembly. -/
theorem process_terminal_classification_witness :
    (Process true true [SubtaskResult.err] true true).fst = "cancelled" ∧
    Process false true [SubtaskResult.err] true true = ("failed", none) ∧
    Process false true [SubtaskResult.cancelled] true true = ("failed", none) ∧
    (transcodeResolutions false [SubtaskResult.ok fragment720] true).assemblyAttempted = true :=
  ⟨(process_terminal_classification [SubtaskResult.err] true true).1.1,
   ((process_terminal_classification [SubtaskResult.err] true true).2.1 (by decide)).1,
   ((process_terminal_classification [SubtaskResult.cancelled] true true).2.2.1 (by decide) (by decide)).1,
   (process_terminal_classification [SubtaskResult.ok fragment720] true true).2.2.2 (by decide) (by decide)⟩

set_option maxRecDepth 20000 in
/-- C3 counterexample: two runs with the same subtask outcomes, differing only
in the order the subtasks completed, write different master manifests; in the
run where the 480P subtask finished first, its variant entry is listed before
the 1080P one, so the manifest is neither completion-order independent nor in
descending target-resolution order. -/
theorem manifest_order_counterexample :
    (transcodeResolutions false [SubtaskResult.ok fragment480, SubtaskResult.ok fragment1080] true).manifest ≠
      (transcodeResolutions false [SubtaskResult.ok fragment1080, SubtaskResult.ok fragment480] true).manifest ∧
    (transcodeResolutions false [SubtaskResult.ok fragment480, SubtaskResult.ok fragment1080] true).manifest =
      some (mainPlaylistContent [fragment480, fragment1080]) := by
  constructor
  · decide
  · decide

/-- C3 amended: on a run with no error outcome and at least one fragment, the
master manifest lists exactly one stream-variant entry (the stream-inf line
and the relative path) per successful fragment, in the order the fragments
arrived on the playlist channel, that is, subtask completion order; the
content is a deterministic function of that arrival-ordered fragment list,
but not of the outcome multiset alone. -/
theorem manifest_order_amended (results : List SubtaskResult)
    (herr : results.any SubtaskResult.isErr = false)
    (hne : results.filterMap SubtaskResult.playlist? ≠ []) :
    (transcodeResolutions false results true).manifest =
      some (String.intercalate "\n"
        (["#EXTM3U", "#EXT-X-VERSION:3"] ++
          ((results.filterMap SubtaskResult.playlist?).map fun p =>
            [streamInfLine p, p.playlistPathFromMain]).flatten)) := by
  simp [transcodeResolutions, herr, List.isEmpty_iff, hne, buildMainPlaylist,
    mainPlaylistContent]

/-- Witness for the amended C3 at a concrete completion order. -/
theorem manifest_order_amended_witness :
    (transcodeResolutions false [SubtaskResult.ok fragment480, SubtaskResult.ok fragment1080] true).manifest =
      some (String.intercalate "\n"
        (["#EXTM3U", "#EXT-X-VERSION:3"] ++
          (([fragment480, fragment1080]).map fun p =>
            [streamInfLine p, p.playlistPathFromMain]).flatten)) :=
  manifest_order_amended [SubtaskResult.ok fragment480, SubtaskResult.ok fragment1080]
    (by decide) (by decide)

set_option maxRecDepth 20000 in
/-- C9: evaluation of the code at a failing input. A clean 720P transcode of
video.mp4 whose produced playlist probes at 1280x720 yields a fragment whose
detected resolution carries a zero Bitrate (DetectPlaylistResolution never
fills that field), so the emitted stream-variant line has BANDWIDTH=0 even
though the preset table gives the 720P tier the positive target bitrate
4000 kbps. -/
theorem bandwidth_zero_code_bug :
    transcodePlaylist "video.mp4" P720 "./output/task7"
        [{ codecType := "video", width := 1280, height := 720 }] =
      some { resolution := { height := 720, width := 1280, bitrate := 0 },
             playlistFilename := "video_720Pp.m3u8",
             playlistPathFromMain := "720P/video_720Pp.m3u8",
             playlistPath := "./output/task7/720P/video_720Pp.m3u8" } ∧
    streamInfLine { resolution := { height := 720, width := 1280, bitrate := 0 },
                    playlistFilename := "video_720Pp.m3u8",
                    playlistPathFromMain := "720P/video_720Pp.m3u8",
                    playlistPath := "./output/task7/720P/video_720Pp.m3u8" } =
      "#EXT-X-STREAM-INF:BANDWIDTH=0,RESOLUTION=1280x720" ∧
    (lookupKey P720 RESOLUTIONS).map ResolutionPreset.bitrate = some 4000 := by
  refine ⟨?_, ?_, ?_⟩
  · decide
  · decide
  · decide

/-- C8 counterexample: for a source whose resolution probe fails, construction
(NewTranscoder) indeed returns nil, yet the handler still hands the job id
back to the caller in its 202 response, and the background goroutine still
reaches a Process invocation — on the nil transcoder — so both halves of the
claim fail at this concrete input. -/
theorem startjob_counterexample :
    NewTranscoder none (RESOLUTIONS.map Prod.fst) none "./output" "video.mp4" = none ∧
    (handleTranscode "task-1"
        (NewTranscoder none (RESOLUTIONS.map Prod.fst) none "./output" "video.mp4")).fst.taskId
      = "task-1" ∧
    DriverEvent.processInvoked true ∈
      (handleTranscode "task-1"
        (NewTranscoder none (RESOLUTIONS.map Prod.fst) none "./output" "video.mp4")).snd := by
  refine ⟨rfl, rfl, ?_⟩
  decide

/-- C8 amended: when construction fails (resolution or duration probe failure,
or an empty filtered target set), the failure is detected inside the background
goroutine only after the 202 response carrying the job id has been handed to
the caller; the goroutine publishes a failed update — and then, because the
nil check has no early return, still invokes Process on the nil transcoder
before the deferred cleanup removes the task. -/
theorem startjob_amended (taskID : String) (tr : Option Transcoder)
    (h : tr = none) :
    (handleTranscode taskID tr).fst.taskId = taskID ∧
    (handleTranscode taskID tr).snd =
      [DriverEvent.storeCancelFunc taskID, DriverEvent.publishFailedInit taskID,
       DriverEvent.processInvoked true, DriverEvent.removeTask taskID] := by
  subst h
  exact ⟨rfl, rfl⟩

/-- Witness for the amended C8 at the concrete failed construction. -/
theorem startjob_amended_witness :
    ((none : Option Transcoder) = none) ∧
    (handleTranscode "task-9" (none : Option Transcoder)).fst.taskId = "task-9" ∧
    (handleTranscode "task-9" (none : Option Transcoder)).snd =
      [DriverEvent.storeCancelFunc "task-9", DriverEvent.publishFailedInit "task-9",
       DriverEvent.processInvoked true, DriverEvent.removeTask "task-9"] :=
  ⟨rfl, (startjob_amended "task-9" none rfl).1, (startjob_amended "task-9" none rfl).2⟩

/-- Concrete registry state used by the cancel claims: one job whose entry was
given the cancellation handle 7 via StoreCancelFunc. -/
def cancelDemoState : StatusManager :=
  StoreCancelFunc StatusManager.empty "job-1" 7

/-- C4 counterexample: on a job whose entry exists and holds a bound handle,
CancelTask still returns an error when the output-directory removal fails, and
even a successful call records an output-directory removal attempt — so the
operation neither errs only on NotFound and NotCancellable nor leaves cleanup
to the Driver. -/
theorem cancel_pure_signal_counterexample :
    (lookupKey "job-1" cancelDemoState.tasks).map TaskStatus.cancel = some (some 7) ∧
    (CancelTask cancelDemoState "job-1" true).snd.snd = some CancelErr.removeFailed ∧
    CancelEvent.outputDirRemoveAttempted "job-1" ∈
      (CancelTask cancelDemoState "job-1" false).snd.fst := by
  refine ⟨by decide, by decide, by decide⟩

/-- C4 amended: CancelTask errs exactly when the job has no registry entry,
when the entry has no bound handle, or when the output-directory removal
fails; whenever the entry holds a handle, the handle is invoked and the
removal of the output directory of the job is attempted by CancelTask itself;
and the call never mutates the registry state. -/
theorem cancel_task_amended (sm : StatusManager) (taskID : String)
    (removeFails : Bool) :
    (CancelTask sm taskID removeFails).fst = sm ∧
    (lookupKey taskID sm.tasks = none →
      (CancelTask sm taskID removeFails).snd = ([], some CancelErr.notFound)) ∧
    (∀ task, lookupKey taskID sm.tasks = some task → task.cancel = none →
      (CancelTask sm taskID removeFails).snd = ([], some CancelErr.notCancellable)) ∧
    (∀ task h, lookupKey taskID sm.tasks = some task → task.cancel = some h →
      (CancelTask sm taskID removeFails).snd =
        ([CancelEvent.cancelInvoked h, CancelEvent.outputDirRemoveAttempted taskID],
         if removeFails then some CancelErr.removeFailed else none)) := by
  refine ⟨?_, ?_, ?_, ?_⟩
  · cases hlook : lookupKey taskID sm.tasks with
    | none => simp [CancelTask, hlook]
    | some task =>
      cases hcancel : task.cancel with
      | none => simp [CancelTask, hlook, hcancel]
      | some hdl => cases removeFails <;> simp [CancelTask, hlook, hcancel]
  · intro hlook
    simp [CancelTask, hlook]
  · intro task hlook hcancel
    simp [CancelTask, hlook, hcancel]
  · intro task h hlook hcancel
    cases removeFails <;> simp [CancelTask, hlook, hcancel]

/-- Witness for the amended C4 at the concrete cancellable job. -/
theorem cancel_task_amended_witness :
    (CancelTask cancelDemoState "job-1" false).fst = cancelDemoState ∧
    (CancelTask cancelDemoState "job-1" false).snd =
      ([CancelEvent.cancelInvoked 7, CancelEvent.outputDirRemoveAttempted "job-1"],
       none) :=
  ⟨(cancel_task_amended cancelDemoState "job-1" false).1,
   (cancel_task_amended cancelDemoState "job-1" false).2.2.2
     { lastUpdate := StatusUpdate.zero, cancel := some 7 } 7 (by decide) rfl⟩

/-- Update with type started used in concrete runs. -/
def startedU : StatusUpdate := { StatusUpdate.zero with type := "started" }

/-- Update with type progress used in concrete runs. -/
def progressU : StatusUpdate := { StatusUpdate.zero with type := "progress" }

/-- Update with type completed used in concrete runs. -/
def completedU : StatusUpdate := { StatusUpdate.zero with type := "completed" }

/-- C2: Publish is non-blocking per subscriber. After SendUpdate for a job,
the stamped update is recorded as the last status of the job; every registered
subscriber channel receives exactly a try-send of the stamped update; channels
not subscribed to the job are untouched; and a try-send on a full channel
leaves the channel unchanged (the update is dropped for that subscriber, the
producer never waits). The subscriber set of a job has no duplicate channels,
being a Go map keyed by channel. -/
theorem publish_nonblocking (sm : StatusManager) (taskID : String)
    (update : StatusUpdate)
    (hnd : ((lookupKey taskID sm.subscribers).getD []).Nodup) :
    (lookupKey taskID (SendUpdate sm taskID update).tasks).map TaskStatus.lastUpdate =
      some { update with timestamp := sm.now } ∧
    (∀ cid, cid ∈ (lookupKey taskID sm.subscribers).getD [] →
      lookupKey cid (SendUpdate sm taskID update).chans =
        (lookupKey cid sm.chans).map fun c =>
          c.trySend { update with timestamp := sm.now }) ∧
    (∀ cid, cid ∉ (lookupKey taskID sm.subscribers).getD [] →
      lookupKey cid (SendUpdate sm taskID update).chans = lookupKey cid sm.chans) ∧
    (∀ (c : Chan) (u : StatusUpdate), ¬ c.buf.length < c.cap → c.trySend u = c) := by
  refine ⟨?_, ?_, ?_, ?_⟩
  · simp [SendUpdate, lookupKey_setEntry_same]
  · intro cid hmem
    cases hsubs : lookupKey taskID sm.subscribers with
    | none => simp [hsubs] at hmem
    | some subs =>
      have hnd2 : subs.Nodup := by simpa [hsubs] using hnd
      have hmem2 : cid ∈ subs := by simpa [hsubs] using hmem
      simp [SendUpdate, hsubs, lookupKey_updateAll _ _ _ _ hnd2, hmem2]
  · intro cid hmem
    cases hsubs : lookupKey taskID sm.subscribers with
    | none => simp [SendUpdate, hsubs]
    | some subs =>
      have hnd2 : subs.Nodup := by simpa [hsubs] using hnd
      have hmem2 : cid ∉ subs := by simpa [hsubs] using hmem
      simp [SendUpdate, hsubs, lookupKey_updateAll _ _ _ _ hnd2, hmem2]
  · intro c u hfull
    simp [Chan.trySend, hfull]

/-- Registry state with one job and one registered subscriber, used by the
publish witness. -/
def pubDemo : StatusManager × Option Nat :=
  RegisterSubscriber (SendUpdate StatusManager.empty "job-p" startedU) "job-p"

/-- Witness for C2 at a concrete state with one registered subscriber. -/
theorem publish_nonblocking_witness :
    (lookupKey "job-p" (SendUpdate pubDemo.fst "job-p" progressU).tasks).map
        TaskStatus.lastUpdate = some { progressU with timestamp := pubDemo.fst.now } ∧
    lookupKey 0 (SendUpdate pubDemo.fst "job-p" progressU).chans =
      (lookupKey 0 pubDemo.fst.chans).map fun c =>
        c.trySend { progressU with timestamp := pubDemo.fst.now } :=
  ⟨(publish_nonblocking pubDemo.fst "job-p" progressU (by decide)).1,
   (publish_nonblocking pubDemo.fst "job-p" progressU (by decide)).2.1 0 (by decide)⟩

/-- Registry state for the double-close scenario: one job with a first status
published and two subscribers registered (channels 0 and 1). -/
def dblDemo : StatusManager :=
  (RegisterSubscriber
    (RegisterSubscriber (SendUpdate StatusManager.empty "job-d" startedU) "job-d").fst
    "job-d").fst

/-- First deregistration of channel 0: removes it from the set and closes it. -/
def dblDemoFirst : StatusManager × Bool :=
  DeregisterSubscriber dblDemo "job-d" 0

/-- Second deregistration of the already-removed channel 0, while channel 1 is
still registered. -/
def dblDemoSecond : StatusManager × Bool :=
  DeregisterSubscriber dblDemoFirst.fst "job-d" 0

/-- C5: evaluation of the code at the failing input. With two subscribers for
the job, the first deregistration of channel 0 removes and closes it without
incident; calling DeregisterSubscriber a second time with the already-removed
channel 0 — while channel 1 keeps the subscriber entry of the job alive —
executes close on the already closed channel (the returned flag: a Go runtime
panic), leaving its close count at two, instead of being a no-op. -/
theorem deregister_double_close_code_bug :
    dblDemoFirst.snd = false ∧
    (lookupKey 0 dblDemoFirst.fst.chans).map Chan.closedCount = some 1 ∧
    0 ∉ (lookupKey "job-d" dblDemoFirst.fst.subscribers).getD [] ∧
    1 ∈ (lookupKey "job-d" dblDemoFirst.fst.subscribers).getD [] ∧
    dblDemoSecond.snd = true ∧
    (lookupKey 0 dblDemoSecond.fst.chans).map Chan.closedCount = some 2 := by
  refine ⟨by decide, by decide, by decide, by decide, by decide, by decide⟩

/-- Registry state for the missed-terminal scenario: a job with one subscriber
(channel 0) whose buffer of capacity 5 has been filled by the initial status
delivery plus four progress publishes, none of them terminal. -/
def gapDemo : StatusManager :=
  SendUpdate
    (SendUpdate
      (SendUpdate
        (SendUpdate
          (RegisterSubscriber (SendUpdate StatusManager.empty "job-g" startedU) "job-g").fst
          "job-g" progressU)
        "job-g" progressU)
      "job-g" progressU)
    "job-g" progressU

/-- The state after the terminal completed update is published into the full
buffer (the send to channel 0 is skipped). -/
def gapDemoTerm : StatusManager :=
  SendUpdate gapDemo "job-g" completedU

/-- The state after the job is removed, closing channel 0. -/
def gapDemoFin : StatusManager × List Nat :=
  RemoveTask gapDemoTerm "job-g"

/-- C6 counterexample: channel 0 is still registered when the terminal
completed update is published, the update is recorded as the last status, yet
the channel buffer is full so the delivery is skipped; the subsequent job
removal closes the channel whose buffer holds only the five non-terminal
updates — the subscriber channel is closed without a terminal update ever
having been delivered to it. -/
theorem terminal_before_close_counterexample :
    0 ∈ (lookupKey "job-g" gapDemo.subscribers).getD [] ∧
    (lookupKey "job-g" gapDemoTerm.tasks).map (fun t => t.lastUpdate.type) =
      some "completed" ∧
    (lookupKey 0 gapDemoFin.fst.chans).map Chan.closedCount = some 1 ∧
    (lookupKey 0 gapDemoFin.fst.chans).map (fun c => c.buf.map StatusUpdate.type) =
      some ["started", "progress", "progress", "progress", "progress"] := by
  refine ⟨by decide, by decide, by decide, by decide⟩

/-- C6 amended: a subscriber whose channel still has buffer room at the moment
the terminal update is published does receive the stamped terminal update
before the job removal closes its channel exactly once; the counterexample
shows the guarantee fails precisely when the buffer is full at that moment. -/
theorem terminal_before_close_amended (sm : StatusManager) (taskID : String)
    (cid : Nat) (c : Chan) (u : StatusUpdate)
    (hnd : ((lookupKey taskID sm.subscribers).getD []).Nodup)
    (hsub : cid ∈ (lookupKey taskID sm.subscribers).getD [])
    (hc : lookupKey cid sm.chans = some c)
    (hroom : c.buf.length < c.cap)
    (hterm : u.type = "completed" ∨ u.type = "failed" ∨ u.type = "cancelled") :
    lookupKey cid (RemoveTask (SendUpdate sm taskID u) taskID).fst.chans =
      some ((c.trySend { u with timestamp := sm.now }).close) ∧
    { u with timestamp := sm.now } ∈ (c.trySend { u with timestamp := sm.now }).buf ∧
    ((c.trySend { u with timestamp := sm.now }).close).closedCount = c.closedCount + 1 := by
  cases hsubs : lookupKey taskID sm.subscribers with
  | none => simp [hsubs] at hsub
  | some subs =>
    have hnd2 : subs.Nodup := by simpa [hsubs] using hnd
    have hmem : cid ∈ subs := by simpa [hsubs] using hsub
    have hchans1 : lookupKey cid (SendUpdate sm taskID u).chans =
        some (c.trySend { u with timestamp := sm.now }) := by
      simp [SendUpdate, hsubs, lookupKey_updateAll _ _ _ _ hnd2, hmem, hc]
    have hsubs1 : lookupKey taskID (SendUpdate sm taskID u).subscribers = some subs := by
      simp [SendUpdate, hsubs]
    refine ⟨?_, ?_, ?_⟩
    · simp [RemoveTask, hsubs1, lookupKey_updateAll _ _ _ _ hnd2, hmem, hchans1]
    · simp [Chan.trySend, hroom]
    · simp [Chan.trySend, Chan.close, hroom]

/-- Witness for the amended C6: with a single subscriber holding one buffered
update (room for four more), the published terminal update lands in the buffer
and the channel is closed exactly once by removal. -/
theorem terminal_before_close_amended_witness :
    lookupKey 0 (RemoveTask (SendUpdate pubDemo.fst "job-p" completedU) "job-p").fst.chans =
      some ((Chan.trySend { buf := [{ startedU with timestamp := 0 }], cap := 5, closedCount := 0 }
        { completedU with timestamp := pubDemo.fst.now }).close) ∧
    { completedU with timestamp := pubDemo.fst.now } ∈
      (Chan.trySend { buf := [{ startedU with timestamp := 0 }], cap := 5, closedCount := 0 }
        { completedU with timestamp := pubDemo.fst.now }).buf ∧
    ((Chan.trySend { buf := [{ startedU with timestamp := 0 }], cap := 5, closedCount := 0 }
        { completedU with timestamp := pubDemo.fst.now }).close).closedCount = 0 + 1 :=
  terminal_before_close_amended pubDemo.fst "job-p" 0
    { buf := [{ startedU with timestamp := 0 }], cap := 5, closedCount := 0 }
    completedU (by decide) (by decide) (by decide) (by decide) (Or.inl rfl)

/-- Sequence of publishes applied to a registry state, each update paired with
its job id. -/
def publishMany (sm : StatusManager) (updates : List (String × StatusUpdate)) :
    StatusManager :=
  updates.foldl (fun acc p => SendUpdate acc p.fst p.snd) sm

/-- Publishes addressed to other jobs never change the task entry of a job. -/
theorem lookupKey_tasks_publishMany_other (taskID : String)
    (others : List (String × StatusUpdate)) (s : StatusManager)
    (h : ∀ p ∈ others, p.fst ≠ taskID) :
    lookupKey taskID (publishMany s others).tasks = lookupKey taskID s.tasks := by
  induction others generalizing s with
  | nil => rfl
  | cons p rest ih =>
    have hp : p.fst ≠ taskID := h p (List.mem_cons_self p rest)
    have hrest : ∀ q ∈ rest, q.fst ≠ taskID := fun q hq => h q (List.mem_cons_of_mem p hq)
    have step : lookupKey taskID (SendUpdate s p.fst p.snd).tasks =
        lookupKey taskID s.tasks := by
      simp [SendUpdate, lookupKey_setEntry_other _ _ (Ne.symm hp)]
    rw [publishMany, List.foldl_cons]
    rw [show (rest.foldl (fun acc q => SendUpdate acc q.fst q.snd)
        (SendUpdate s p.fst p.snd)) = publishMany (SendUpdate s p.fst p.snd) rest from rfl]
    rw [ih (SendUpdate s p.fst p.snd) hrest, step]

/-- C7: last-status correctness. After a Publish of u for the job and then any
interleaving of Publishes addressed to other jobs, the registry retains
exactly u stamped with its send-time timestamp as the last status of the job,
a fresh Subscribe succeeds, and the update it immediately delivers on the new
channel is exactly that most recent stamped update, never an earlier one. -/
theorem last_status_correctness (sm : StatusManager) (taskID : String)
    (u : StatusUpdate) (others : List (String × StatusUpdate))
    (hothers : ∀ p ∈ others, p.fst ≠ taskID) :
    (lookupKey taskID (publishMany (SendUpdate sm taskID u) others).tasks).map
        TaskStatus.lastUpdate = some { u with timestamp := sm.now } ∧
    (RegisterSubscriber (publishMany (SendUpdate sm taskID u) others) taskID).snd =
      some (publishMany (SendUpdate sm taskID u) others).nextChan ∧
    (lookupKey (publishMany (SendUpdate sm taskID u) others).nextChan
        (RegisterSubscriber (publishMany (SendUpdate sm taskID u) others) taskID).fst.chans).map
        Chan.buf = some [{ u with timestamp := sm.now }] := by
  have htasks : lookupKey taskID (publishMany (SendUpdate sm taskID u) others).tasks =
      some { ((lookupKey taskID sm.tasks).getD TaskStatus.zero) with
             lastUpdate := { u with timestamp := sm.now } } := by
    rw [lookupKey_tasks_publishMany_other taskID others _ hothers]
    simp [SendUpdate, lookupKey_setEntry_same]
  refine ⟨?_, ?_, ?_⟩
  · simp [htasks]
  · simp [RegisterSubscriber, htasks]
  · simp [RegisterSubscriber, htasks, Chan.trySend, lookupKey_setEntry_same]

/-- Witness for C7: publish to job a, then a publish to job b interleaves, and
a fresh subscription to job a still immediately receives exactly the stamped
update of job a. -/
theorem last_status_correctness_witness :
    (lookupKey "job-a" (publishMany (SendUpdate StatusManager.empty "job-a" progressU)
        [("job-b", startedU)]).tasks).map TaskStatus.lastUpdate =
      some { progressU with timestamp := 0 } ∧
    (RegisterSubscriber (publishMany (SendUpdate StatusManager.empty "job-a" progressU)
        [("job-b", startedU)]) "job-a").snd =
      some (publishMany (SendUpdate StatusManager.empty "job-a" progressU)
        [("job-b", startedU)]).nextChan ∧
    (lookupKey (publishMany (SendUpdate StatusManager.empty "job-a" progressU)
        [("job-b", startedU)]).nextChan
        (RegisterSubscriber (publishMany (SendUpdate StatusManager.empty "job-a" progressU)
          [("job-b", startedU)]) "job-a").fst.chans).map Chan.buf =
      some [{ progressU with timestamp := 0 }] :=
  last_status_correctness StatusManager.empty "job-a" progressU [("job-b", startedU)]
    (by decide)

/-- Registry state with one job entry created by a first publish, used by the
frame-effect witness. -/
def frameDemo : StatusManager :=
  SendUpdate StatusManager.empty "job-c" startedU

/-- C10: SendUpdate leaves the bound cancellation handle unchanged. A handle
stored via StoreCancelFunc is still bound after any SendUpdate for the job,
and on any existing entry SendUpdate rewrites exactly the LastUpdate field,
keeping the Cancel field of the entry as it was. -/
theorem publish_preserves_cancel (sm : StatusManager) (taskID : String)
    (hdl : Nat) (u : StatusUpdate) :
    (lookupKey taskID (SendUpdate (StoreCancelFunc sm taskID hdl) taskID u).tasks).map
        TaskStatus.cancel = some (some hdl) ∧
    (∀ task, lookupKey taskID sm.tasks = some task →
      lookupKey taskID (SendUpdate sm taskID u).tasks =
        some { lastUpdate := { u with timestamp := sm.now }, cancel := task.cancel }) := by
  constructor
  · cases hlook : lookupKey taskID sm.tasks with
    | none => simp [StoreCancelFunc, hlook, SendUpdate, lookupKey_setEntry_same]
    | some task => simp [StoreCancelFunc, hlook, SendUpdate, lookupKey_setEntry_same]
  · intro task hlook
    simp [SendUpdate, hlook, lookupKey_setEntry_same]

/-- Witness for C10 at a concrete job entry. -/
theorem publish_preserves_cancel_witness :
    (lookupKey "job-c" (SendUpdate (StoreCancelFunc frameDemo "job-c" 3) "job-c" progressU).tasks).map
        TaskStatus.cancel = some (some 3) ∧
    lookupKey "job-c" (SendUpdate frameDemo "job-c" progressU).tasks =
      some { lastUpdate := { progressU with timestamp := frameDemo.now },
             cancel := ({ lastUpdate := { startedU with timestamp := 0 },
                          cancel := none } : TaskStatus).cancel } :=
  ⟨(publish_preserves_cancel frameDemo "job-c" 3 progressU).1,
   (publish_preserves_cancel frameDemo "job-c" 3 progressU).2
     { lastUpdate := { startedU with timestamp := 0 }, cancel := none } (by decide)⟩
